import Mathlib

/-!
Verification of the LifeScan AI request-processing pipeline.

The Python sources are shallowly embedded:
  * JSON-like Python values become the inductive type `Value`
    (Python `None` is `Value.null`, floats are modelled as rationals);
  * dictionaries become insertion-ordered association lists
    `List (String × Value)` with first-match lookup;
  * code that can raise becomes `Except PyErr _` / `Except HTTPError _`
    (`PyErr` holds the text of `str(exc)`);
  * the external collaborators (`azure_vision.analyze_image`,
    `azure_openai.generate_insights`) are injected through `Backends`,
    with the repository's deterministic mock kept as `analyze_image`.
-/

namespace LifeScan

/-- Python values as they flow through the pipeline (JSON-like data). -/
inductive Value where
  | null : Value
  | bool : Bool → Value
  | int : Int → Value
  | float : Rat → Value
  | str : String → Value
  | list : List Value → Value
  | dict : List (String × Value) → Value

/-- The text of a raised (non-HTTP) Python exception, as produced by str(exc). -/
abbrev PyErr := String

/-- A FastAPI HTTPException: status code plus detail message. -/
structure HTTPError where
  status : Nat
  detail : String
deriving DecidableEq

/-- First-match lookup in an insertion-ordered dictionary (Python d.get(k)). -/
def dictGet : List (String × Value) → String → Option Value
  | [], _ => Option.none
  | (k, v) :: rest, key => if k = key then some v else dictGet rest key

/-- Python d.get(k) with its default of None. -/
def getD (d : List (String × Value)) (k : String) : Value :=
  (dictGet d k).getD .null

/-- Python truthiness of a value (bool(v)). -/
def truthy : Value → Bool
  | .null => false
  | .bool b => b
  | .int n => n != 0
  | .float q => q != 0
  | .str s => s != ""
  | .list l => !l.isEmpty
  | .dict d => !d.isEmpty

/-- Python `a or b`: the left operand when truthy, otherwise the right. -/
def pyOrV (a b : Value) : Value := if truthy a then a else b

/-- Whether a value is Python None. -/
def isNull : Value → Bool
  | .null => true
  | _ => false

/-- Whether a value is a Python str. -/
def isStr : Value → Bool
  | .str _ => true
  | _ => false

/-- Whether a value is a Python dict. -/
def isDictV : Value → Bool
  | .dict _ => true
  | _ => false

/-- isinstance(v, (int, float)); Python bool is a subclass of int. -/
def isNumLike : Value → Bool
  | .int _ => true
  | .float _ => true
  | .bool _ => true
  | _ => false

/-- Python subscription d[k]; a missing key raises KeyError, a non-dict
    raises TypeError. -/
def pySubscript (v : Value) (k : String) : Except PyErr Value :=
  match v with
  | .dict d =>
    match dictGet d k with
    | some x => .ok x
    | Option.none => .error ("KeyError: \x27" ++ k ++ "\x27")
  | _ => .error "TypeError: object is not subscriptable"

/-- Python indexing l[0]; an empty list raises IndexError, a non-list
    raises TypeError. -/
def pyIndex0 (v : Value) : Except PyErr Value :=
  match v with
  | .list (x :: _) => .ok x
  | .list [] => .error "IndexError: list index out of range"
  | _ => .error "TypeError: object is not subscriptable"

/-- Numeric view of a value for arithmetic comparison (bools count as 0/1). -/
def toNum : Value → Option Rat
  | .int n => some (n : Rat)
  | .float q => some q
  | .bool b => some (if b then 1 else 0)
  | _ => Option.none

/-- Exact order comparison of rationals by cross-multiplication (denominators
    are positive), kept as a Bool so that it evaluates in the kernel. -/
def ratLtB (a b : Rat) : Bool := a.num * (b.den : Int) < b.num * (a.den : Int)

/-- Python `n < v` for an int literal n; non-numeric operands raise. -/
def pyGTNum (v : Value) (n : Int) : Except PyErr Bool :=
  match toNum v with
  | some q => .ok (ratLtB (n : Rat) q)
  | Option.none => .error "TypeError: comparison not supported between instances"

/-- Python `v == s` for a string literal s (string equality; other types
    compare unequal). -/
def pyEqStr (v : Value) (s : String) : Bool :=
  match v with
  | .str t => t == s
  | _ => false

/-! ### Upload validation (backend/app_fastapi.py) -/

/-- The backend allow-list of filename extensions. -/
def ALLOWED_EXTENSIONS : List String := ["png", "jpg", "jpeg", "webp", "bmp", "gif"]

/-- Python s.lower() on the ASCII fragment relevant to extensions and modes
    (character-wise lowercasing). -/
def pyLower (s : String) : String := String.mk (s.toList.map Char.toLower)

/-- Split a character list at its last dot: some (before, after) when a dot
    occurs, none otherwise. -/
def splitLastDot : List Char → Option (List Char × List Char)
  | [] => Option.none
  | c :: cs =>
    match splitLastDot cs with
    | some (a, b) => some (c :: a, b)
    | Option.none => if c = '.' then some ([], cs) else Option.none

/-- Python s.rsplit(".", 1). -/
def pyRsplitDot1 (s : String) : List String :=
  match splitLastDot s.toList with
  | some (a, b) => [String.mk a, String.mk b]
  | Option.none => [s]

/-- backend _is_allowed_filename: falsy filenames fail, otherwise the part
    after the last dot, lowercased, must be in the allow-list. -/
def is_allowed_filename : Option String → Bool
  | Option.none => false
  | some f =>
    if f = "" then false
    else
      match pyRsplitDot1 f with
      | [_, ext] => ALLOWED_EXTENSIONS.contains (pyLower ext)
      | _ => false

/-- backend _read_upload_file: rejects a disallowed filename, then an empty
    payload, and otherwise returns the bytes. -/
def read_upload_file (filename : Option String) (contents : List Nat) :
    Except HTTPError (List Nat) :=
  if !(is_allowed_filename filename) then .error ⟨400, "Unsupported file type"⟩
  else if contents.isEmpty then .error ⟨400, "Empty file uploaded"⟩
  else .ok contents

/-! ### Scorers (backend/physical_processing.py, backend/cognitive_processing.py) -/

/-- backend evaluate_physical_scan. -/
def evaluate_physical_scan (features : Value) : Except PyErr Value := do
  let color ← pySubscript features "color"
  let dominant ← pySubscript color "dominantColorForeground"
  let anemia_risk : Rat := if pyEqStr dominant "White" || pyEqStr dominant "Gray" then mkRat 7 10 else mkRat 4 10
  pure (.dict [("dominant_color", dominant), ("anemia_risk", .float anemia_risk)])

/-- backend evaluate_cognitive_scan. -/
def evaluate_cognitive_scan (features : Value) : Except PyErr Value := do
  let faces ← pySubscript features "faces"
  let face0 ← pyIndex0 faces
  let age ← pySubscript face0 "age"
  let gt ← pyGTNum age 20
  let stress_score : Rat := if gt then mkRat 8 10 else mkRat 4 10
  pure (.dict [("stress_score", .float stress_score),
               ("cognitive_load", .str (if ratLtB (mkRat 6 10) stress_score then "high" else "normal"))])

/-! ### Mock collaborators (backend/azure_vision.py) -/

/-- backend azure_vision.analyze_image: the mock ignores the bytes and returns
    a fixed feature set. -/
def analyze_image (_img_bytes : List Nat) : Value :=
  .dict [("color", .dict [("dominantColorForeground", .str "White")]),
         ("faces", .list [.dict [("age", .int 23)]])]

/-! ### Response shaping (backend/app_fastapi.py, _shape_response) -/

/-- Digits of a decimal numeral read as a natural number. -/
def digitsToNat (ds : List Char) : Nat :=
  ds.foldl (fun acc c => acc * 10 + (c.toNat - 48)) 0

/-- Python float(s) on a plain decimal string literal: optional sign, digits,
    optional fractional part; other strings raise ValueError (here: none).
    Exponents, underscores, inf and nan are outside the modelled fragment. -/
def parseFloat? (s : String) : Option Rat :=
  let cs := s.toList
  let sgn : Int := match cs with
    | '-' :: _ => -1
    | _ => 1
  let cs := match cs with
    | '-' :: r => r
    | '+' :: r => r
    | r => r
  let intPart := cs.takeWhile Char.isDigit
  let rest := cs.dropWhile Char.isDigit
  match rest with
  | [] => if intPart.isEmpty then Option.none else some ((sgn * (digitsToNat intPart : Int) : Int) : Rat)
  | '.' :: fr =>
    if fr.all Char.isDigit && !(intPart.isEmpty && fr.isEmpty) then
      some (mkRat (sgn * ((digitsToNat intPart * 10 ^ fr.length + digitsToNat fr : Nat) : Int)) (10 ^ fr.length))
    else Option.none
  | _ => Option.none

/-- Python float(v): numbers pass through, bools become 0/1, decimal strings
    parse; anything else raises (here: none). -/
def pyFloat? : Value → Option Rat
  | .int n => some (n : Rat)
  | .float q => some q
  | .bool b => some (if b then 1 else 0)
  | .str s => parseFloat? s
  | _ => Option.none

/-- Python round(q) with no digits argument: nearest integer, ties to even,
    computed on the exact rational with integer arithmetic (f is the floor of
    q and r2 is twice the fractional numerator, compared against the
    denominator). -/
def roundHalfEven (q : Rat) : Int :=
  let f : Int := q.num.fdiv (q.den : Int)
  let r2 : Int := 2 * (q.num - f * (q.den : Int))
  if r2 < (q.den : Int) then f
  else if (q.den : Int) < r2 then f + 1
  else if f % 2 = 0 then f else f + 1

/-- backend _norm_score: int(round(float(v))), with any failure caught and
    turned into None. -/
def norm_score (v : Value) : Value :=
  match pyFloat? v with
  | some q => .int (roundHalfEven q)
  | Option.none => .null

/-- The conditional expression `_norm_score(v) if v is not None else None`
    applied to a selected score value. -/
def normIfPresent (v : Value) : Value :=
  if isNull v then .null else norm_score v

/-- The summary expression of _shape_response: the narration itself when it is
    a string, its "summary" entry when it is a dict, else the empty string. -/
def summaryOf : Value → Value
  | .str s => .str s
  | .dict d => (dictGet d "summary").getD .null
  | _ => .str ""

/-- The loop body of the objects branch: o.get raises on a non-dict o;
    otherwise the object/rectangle pair is built with or-fallbacks. -/
def normalizeObject (o : Value) : Except PyErr Value :=
  match o with
  | .dict d =>
    .ok (.dict [("object", pyOrV (getD d "object") (getD d "name")),
                ("rectangle", pyOrV (getD d "rectangle") (pyOrV (getD d "boundingBox") (.dict [])))])
  | _ => .error "AttributeError: object has no attribute get"

/-- Python v[:8] combined with iteration: lists are truncated to 8 elements,
    strings slice to their first 8 one-character strings, anything else
    raises TypeError. -/
def pySliceTake8 (v : Value) : Except PyErr (List Value) :=
  match v with
  | .list l => .ok (l.take 8)
  | .str s => .ok ((s.toList.take 8).map (fun c => .str (String.mk [c])))
  | _ => .error "TypeError: object is not subscriptable"

/-- The response dict built by _shape_response before the regions section. -/
def shapeBase (mode : String) (vision_features : Value)
    (scores : List (String × Value)) (explanation : Value) : List (String × Value) :=
  let summary := summaryOf explanation
  let health_score :=
    pyOrV (getD scores "healthScore")
      (pyOrV (getD scores "health_score")
        (pyOrV (getD scores "score") (getD scores "health")))
  let cognitive_score :=
    pyOrV (getD scores "cognitiveScore")
      (pyOrV (getD scores "cognitive_score") (getD scores "cognitive"))
  [("mode", .str mode),
   ("summary", pyOrV summary (.str "")),
   ("healthScore", normIfPresent health_score),
   ("cognitiveScore", normIfPresent cognitive_score),
   ("confidence", if isNumLike (getD scores "confidence") then getD scores "confidence" else .null),
   ("highlights", pyOrV (getD scores "highlights") (pyOrV (getD scores "issues") (.list []))),
   ("recommendations", pyOrV (getD scores "recommendations") (.list [])),
   ("features", vision_features),
   ("scores", .dict scores)]

/-- backend _shape_response: scores.get raises on a non-dict scores; the
    regions section runs only when vision_features is a dict. -/
def shape_response (mode : String) (vision_features : Value) (scoresV : Value)
    (explanation : Value) : Except PyErr Value :=
  match scoresV with
  | .dict scores =>
    let base := shapeBase mode vision_features scores explanation
    match vision_features with
    | .dict vf =>
      match dictGet vf "regions" with
      | some r => .ok (.dict (base ++ [("regions", r)]))
      | Option.none =>
        match dictGet vf "objects" with
        | some objsVal => do
          let sliced ← pySliceTake8 objsVal
          let objs ← sliced.mapM normalizeObject
          pure (.dict (base ++ [("regions", .list objs)]))
        | Option.none => .ok (.dict base)
    | _ => .ok (.dict base)
  | _ => .error "AttributeError: object has no attribute get"

/-! ### HTTP handlers (backend/app_fastapi.py) -/

/-- The injected external collaborators of the pipeline: the vision backend
    and the narration backend (external collaborator boundaries). -/
structure Backends where
  analyze_image : List Nat → Except PyErr Value
  generate_insights : Value → Except PyErr Value

/-- The body of a scan handler's try block after reading the upload. -/
def run_pipeline (B : Backends) (scorer : Value → Except PyErr Value)
    (mode : String) (img_bytes : List Nat) : Except PyErr Value := do
  let vision_features ← B.analyze_image img_bytes
  let scores ← scorer vision_features
  let explanation ← B.generate_insights scores
  shape_response mode vision_features scores explanation

/-- The client-visible outcome of a handler call: a 200 response, a raised
    HTTPException, or an exception escaping the handler, which the hosting
    framework turns into its generic 500 carrying none of the exception's
    text. -/
inductive HandlerOutcome where
  | resp : Value → HandlerOutcome
  | http : HTTPError → HandlerOutcome
  | crash : PyErr → HandlerOutcome

/-- Handlers read and mutate the APP.logger attribute of the global app
    object. A fresh FastAPI app has no such attribute (false); the only
    assignment in the program, in physical_scan's except block, stores None,
    so presence of the attribute is the whole reachable state and the
    `if APP.logger:` logging guard is always falsy once it exists. Each
    handler returns its outcome together with the attribute state it leaves
    behind. -/
abbrev LoggerState := Bool

/-- backend physical_scan handler: HTTPExceptions pass through; on any other
    exception the except block first runs
    APP.logger = getattr(APP, "logger", None) or None (so the attribute
    exists afterwards and holds None), finds the guard falsy, and raises a
    500 whose detail interpolates str(exc). -/
def physical_scan (B : Backends) (loggerSet : LoggerState)
    (image : Option String × List Nat) : HandlerOutcome × LoggerState :=
  match read_upload_file image.1 image.2 with
  | .error e => (.http e, loggerSet)
  | .ok img_bytes =>
    match run_pipeline B evaluate_physical_scan "physical" img_bytes with
    | .ok r => (.resp r, loggerSet)
    | .error exc => (.http ⟨500, "Internal error: " ++ exc⟩, true)

/-- backend cognitive_scan handler: its except block reads `if APP.logger:`
    without the getattr guard, so on a fresh app the lookup itself raises
    AttributeError, which escapes the handler before the 500 with the
    interpolated detail can be raised; once the attribute exists (set by a
    physical_scan failure) the guard is falsy and the leaking 500 is
    raised as in physical_scan. -/
def cognitive_scan (B : Backends) (loggerSet : LoggerState)
    (image : Option String × List Nat) : HandlerOutcome × LoggerState :=
  match read_upload_file image.1 image.2 with
  | .error e => (.http e, loggerSet)
  | .ok img_bytes =>
    match run_pipeline B evaluate_cognitive_scan "cognitive" img_bytes with
    | .ok r => (.resp r, loggerSet)
    | .error exc =>
      if loggerSet then (.http ⟨500, "Internal error: " ++ exc⟩, true)
      else (.crash "AttributeError: \x27FastAPI\x27 object has no attribute \x27logger\x27", false)

/-- The mode normalization of the /scan handler: the FastAPI default
    "cognitive" for an absent field, then (mode or "cognitive").lower(). -/
def norm_mode (modeField : Option String) : String :=
  let m := modeField.getD "cognitive"
  pyLower (if m = "" then "cognitive" else m)

/-- backend scan handler: invalid mode is a 400, otherwise dispatch (the
    handler has no try block of its own, so whatever the dispatched handler
    produces passes through). -/
def scan (B : Backends) (loggerSet : LoggerState) (image : Option String × List Nat)
    (modeField : Option String) : HandlerOutcome × LoggerState :=
  let mode := norm_mode modeField
  if ¬(mode = "cognitive" ∨ mode = "physical") then
    (.http ⟨400, "mode must be \x27cognitive\x27 or \x27physical\x27"⟩, loggerSet)
  else if mode = "physical" then physical_scan B loggerSet image
  else cognitive_scan B loggerSet image

/-- Whether a handler outcome is a 200 response. -/
def isRespOutcome : HandlerOutcome → Bool
  | .resp _ => true
  | _ => false

/-- The field of a successfully shaped response under a key, none when the
    shaping failed or the key is absent. -/
def respField (r : Except PyErr Value) (k : String) : Option Value :=
  match r with
  | .ok (.dict d) => dictGet d k
  | _ => Option.none

/-! ### Characterizing the extension check -/

/-- A filename has an allowed extension when, after its last dot, the
    remaining dot-free suffix lowercases into the allow-list. -/
def hasAllowedExt (f : String) : Prop :=
  ∃ stem ext : List Char, f.toList = stem ++ '.' :: ext ∧ '.' ∉ ext ∧
    pyLower (String.mk ext) ∈ ALLOWED_EXTENSIONS

theorem splitLastDot_eq_none_iff (cs : List Char) :
    splitLastDot cs = Option.none ↔ '.' ∉ cs := by
  induction cs with
  | nil => simp [splitLastDot]
  | cons c cs ih =>
    simp only [splitLastDot]
    cases h : splitLastDot cs with
    | some p =>
      have hmem : '.' ∈ cs := by
        by_contra hc
        rw [ih.mpr hc] at h
        exact Option.noConfusion h
      simp [List.mem_cons, hmem]
    | none =>
      have hnc : '.' ∉ cs := ih.mp h
      by_cases hcdot : c = '.'
      · subst hcdot
        simp
      · simp [hcdot, List.mem_cons, hnc, Ne.symm hcdot]

theorem splitLastDot_some (cs a b : List Char) (h : splitLastDot cs = some (a, b)) :
    cs = a ++ '.' :: b ∧ '.' ∉ b := by
  induction cs generalizing a b with
  | nil => simp [splitLastDot] at h
  | cons c cs ih =>
    cases hs : splitLastDot cs with
    | some p =>
      obtain ⟨a', b'⟩ := p
      simp only [splitLastDot, hs] at h
      injection h with h
      injection h with h1 h2
      obtain ⟨ih1, ih2⟩ := ih a' b' hs
      subst h1
      subst h2
      exact ⟨by simp [ih1], ih2⟩
    | none =>
      simp only [splitLastDot, hs] at h
      split at h
      · injection h with h
        injection h with h1 h2
        subst h1
        subst h2
        rename_i hcdot
        subst hcdot
        exact ⟨rfl, (splitLastDot_eq_none_iff cs).mp hs⟩
      · exact Option.noConfusion h

theorem splitLastDot_append (a b : List Char) (hb : '.' ∉ b) :
    splitLastDot (a ++ '.' :: b) = some (a, b) := by
  induction a with
  | nil => simp [splitLastDot, (splitLastDot_eq_none_iff b).mpr hb]
  | cons x a ih => simp [splitLastDot, ih]

/-- The backend extension check accepts exactly the filenames whose last-dot
    extension lowercases into the allow-list. -/
theorem allowed_iff (f : String) :
    is_allowed_filename (some f) = true ↔ hasAllowedExt f := by
  by_cases hf : f = ""
  · subst hf
    constructor
    · intro h
      simp [is_allowed_filename] at h
    · rintro ⟨a, b, hab, -, -⟩
      have hnil : ("" : String).toList = [] := rfl
      rw [hnil] at hab
      exact absurd hab (by simp)
  · cases hs : splitLastDot f.toList with
    | none =>
      have hs' : splitLastDot f.data = Option.none := hs
      have hfalse : is_allowed_filename (some f) = false := by
        simp [is_allowed_filename, pyRsplitDot1, hf, String.toList, hs']
      rw [hfalse]
      constructor
      · intro h
        exact Bool.noConfusion h
      · rintro ⟨a, b, hab, hnb, hmem⟩
        have hnd : '.' ∉ f.toList := (splitLastDot_eq_none_iff _).mp hs
        exact absurd (show ('.' : Char) ∈ f.toList by rw [hab]; simp) hnd
    | some p =>
      obtain ⟨a, b⟩ := p
      obtain ⟨hcs, hnb⟩ := splitLastDot_some _ _ _ hs
      have hs' : splitLastDot f.data = some (a, b) := hs
      have hval : is_allowed_filename (some f)
          = ALLOWED_EXTENSIONS.contains (pyLower (String.mk b)) := by
        simp [is_allowed_filename, pyRsplitDot1, hf, String.toList, hs']
      rw [hval]
      constructor
      · intro hmem
        exact ⟨a, b, hcs, hnb, List.elem_iff.mp hmem⟩
      · rintro ⟨a', b', hcs', hnb', hmem'⟩
        have h2 : splitLastDot f.toList = some (a', b') := by
          rw [hcs']
          exact splitLastDot_append a' b' hnb'
        rw [hs] at h2
        injection h2 with h2
        injection h2 with h2a h2b
        rw [h2b]
        exact List.elem_iff.mpr hmem'

/-! ### Characterizing the regions section of the shaper -/

/-- The spec's description of one mapped source object: a pair of the
    object's name (object key, else name key) and its rectangle (rectangle
    key, else boundingBox key, else empty). -/
def specMapObj (o : Value) : Value :=
  match o with
  | .dict d => .dict [("object", pyOrV (getD d "object") (getD d "name")),
                      ("rectangle", pyOrV (getD d "rectangle") (pyOrV (getD d "boundingBox") (.dict [])))]
  | _ => .null

/-- The spec's description of the regions field: features.regions verbatim
    when present, else the first at-most-8 objects mapped to name/rectangle
    pairs when features.objects is present, else omitted (none). -/
def regionsSpec (vf : List (String × Value)) : Option Value :=
  match dictGet vf "regions" with
  | some r => some r
  | Option.none =>
    match dictGet vf "objects" with
    | some (.list l) => some (.list ((l.take 8).map specMapObj))
    | _ => Option.none

/-- The trailing regions entry of the shaped response dict. -/
def regionsEntry (vf : List (String × Value)) : List (String × Value) :=
  match regionsSpec vf with
  | some r => [("regions", r)]
  | Option.none => []

/-- Features whose regions section cannot raise: either regions is present,
    or objects is absent, or the first 8 objects are all dicts. -/
def objects_ok (vf : List (String × Value)) : Bool :=
  (dictGet vf "regions").isSome ||
    match dictGet vf "objects" with
    | Option.none => true
    | some (.list l) => (l.take 8).all isDictV
    | some _ => false

theorem mapM_normalizeObject_eq (l : List Value) (h : l.all isDictV = true) :
    l.mapM normalizeObject = Except.ok (l.map specMapObj) := by
  induction l with
  | nil => rfl
  | cons o t ih =>
    simp only [List.all_cons, Bool.and_eq_true] at h
    obtain ⟨ho, ht⟩ := h
    cases o with
    | dict d =>
      simp only [List.mapM_cons, normalizeObject, ih ht, List.map_cons, specMapObj]
      rfl
    | null => exact absurd ho (by simp [isDictV])
    | bool b => exact absurd ho (by simp [isDictV])
    | int n => exact absurd ho (by simp [isDictV])
    | float q => exact absurd ho (by simp [isDictV])
    | str s => exact absurd ho (by simp [isDictV])
    | list l2 => exact absurd ho (by simp [isDictV])

theorem dictGet_append (xs ys : List (String × Value)) (k : String) :
    dictGet (xs ++ ys) k =
      match dictGet xs k with
      | some v => some v
      | Option.none => dictGet ys k := by
  induction xs with
  | nil => rfl
  | cons p xs ih =>
    obtain ⟨k', v⟩ := p
    by_cases hk : k' = k
    · simp [dictGet, hk]
    · simp [dictGet, hk, ih]

theorem except_bind_ok {α β : Type} (a : α) (f : α → Except PyErr β) :
    (Except.ok a >>= f) = f a := rfl

theorem except_pure {α : Type} (a : α) : (pure a : Except PyErr α) = Except.ok a := rfl

/-- Under well-formed objects, the shaper succeeds and its value is the base
    dict followed by the spec-described regions entry. -/
theorem shape_ok_of_objects_ok (mode : String) (vf scores : List (String × Value))
    (exp : Value) (h : objects_ok vf = true) :
    shape_response mode (.dict vf) (.dict scores) exp =
      .ok (.dict (shapeBase mode (.dict vf) scores exp ++ regionsEntry vf)) := by
  have hbody : shape_response mode (.dict vf) (.dict scores) exp =
      (match dictGet vf "regions" with
      | some r => Except.ok (.dict (shapeBase mode (.dict vf) scores exp ++ [("regions", r)]))
      | Option.none =>
        match dictGet vf "objects" with
        | some objsVal => do
          let sliced ← pySliceTake8 objsVal
          let objs ← sliced.mapM normalizeObject
          pure (.dict (shapeBase mode (.dict vf) scores exp ++ [("regions", .list objs)]))
        | Option.none => Except.ok (.dict (shapeBase mode (.dict vf) scores exp))) := rfl
  rw [hbody]
  cases hr : dictGet vf "regions" with
  | some r => simp [regionsEntry, regionsSpec, hr]
  | none =>
    cases ho : dictGet vf "objects" with
    | none => simp [regionsEntry, regionsSpec, hr, ho]
    | some objsVal =>
      unfold objects_ok at h
      rw [hr, ho] at h
      simp only [Option.isSome_none, Bool.false_or] at h
      cases objsVal with
      | list l =>
        have hmap := mapM_normalizeObject_eq (l.take 8) h
        simp only [pySliceTake8, except_bind_ok]
        rw [hmap]
        simp only [except_bind_ok, regionsEntry, regionsSpec, hr, ho]
        rfl
      | null => exact Bool.noConfusion h
      | bool b => exact Bool.noConfusion h
      | int n => exact Bool.noConfusion h
      | float q => exact Bool.noConfusion h
      | str s => exact Bool.noConfusion h
      | dict d => exact Bool.noConfusion h

theorem ratLtB_iff (a b : Rat) : ratLtB a b = true ↔ a < b := by
  simp [ratLtB, Rat.lt_def]

/-! ### Claim theorems -/

/-- C1: for every feature mapping whose color.dominantColorForeground field is
    present with a string value, the physical scorer returns anemia_risk 0.7
    exactly when that string is "White" or "Gray" (case-sensitively), 0.4 for
    every other string, and echoes the string back as dominant_color. -/
theorem C1_physical_scorer (features cdict : List (String × Value)) (s : String)
    (hc : dictGet features "color" = some (.dict cdict))
    (hd : dictGet cdict "dominantColorForeground" = some (.str s)) :
    evaluate_physical_scan (.dict features) =
      .ok (.dict [("dominant_color", .str s),
                  ("anemia_risk", .float (if s = "White" ∨ s = "Gray" then mkRat 7 10 else mkRat 4 10))]) := by
  have h1 : pySubscript (.dict features) "color" = .ok (.dict cdict) := by
    simp [pySubscript, hc]
  have h2 : pySubscript (.dict cdict) "dominantColorForeground" = .ok (.str s) := by
    simp [pySubscript, hd]
  simp only [evaluate_physical_scan, h1, except_bind_ok, h2]
  by_cases hw : s = "White" <;> by_cases hg : s = "Gray" <;>
    simp [pyEqStr, hw, hg, except_pure]

/-- C1 witness: the mock feature set carries dominant color "White", so the
    physical scorer reports anemia_risk 0.7 and echoes "White". -/
theorem C1_physical_scorer_witness :
    evaluate_physical_scan (analyze_image []) =
      .ok (.dict [("dominant_color", .str "White"), ("anemia_risk", .float (mkRat 7 10))]) := by
  have h := C1_physical_scorer
    [("color", .dict [("dominantColorForeground", .str "White")]),
     ("faces", .list [.dict [("age", .int 23)]])]
    [("dominantColorForeground", .str "White")] "White" rfl rfl
  simpa [analyze_image] using h

/-- C2: for every feature mapping with at least one face whose age is numeric,
    the cognitive scorer returns stress_score 0.8 with cognitive_load "high"
    exactly when age exceeds 20, and stress_score 0.4 with "normal" otherwise
    (so age 20 takes the low branch). -/
theorem C2_cognitive_scorer (features faceD : List (String × Value)) (rest : List Value)
    (ageV : Value) (q : Rat)
    (hf : dictGet features "faces" = some (.list (.dict faceD :: rest)))
    (ha : dictGet faceD "age" = some ageV)
    (hq : toNum ageV = some q) :
    evaluate_cognitive_scan (.dict features) =
      .ok (.dict [("stress_score", .float (if 20 < q then mkRat 8 10 else mkRat 4 10)),
                  ("cognitive_load", .str (if 20 < q then "high" else "normal"))]) := by
  have h1 : pySubscript (.dict features) "faces" = .ok (.list (.dict faceD :: rest)) := by
    simp [pySubscript, hf]
  have h2 : pyIndex0 (.list (.dict faceD :: rest)) = .ok (.dict faceD) := rfl
  have h3 : pySubscript (.dict faceD) "age" = .ok ageV := by
    simp [pySubscript, ha]
  have h4 : pyGTNum ageV 20 = .ok (ratLtB ((20 : Int) : Rat) q) := by
    simp [pyGTNum, hq]
  have hcast : ((20 : Int) : Rat) = (20 : Rat) := by norm_num
  rw [hcast] at h4
  simp only [evaluate_cognitive_scan, h1, except_bind_ok, h2, h3, h4]
  by_cases h20 : (20 : Rat) < q
  · have hb : ratLtB 20 q = true := (ratLtB_iff _ _).mpr h20
    simp only [hb, if_true, if_pos h20]
    norm_num [ratLtB, except_pure]
  · have hb : ratLtB 20 q = false := by
      cases hbv : ratLtB 20 q with
      | true => exact absurd ((ratLtB_iff _ _).mp hbv) h20
      | false => rfl
    simp only [hb, if_false, if_neg h20]
    norm_num [ratLtB, except_pure]

/-- C2 witness: a single face of age exactly 20 takes the low-score branch,
    stress_score 0.4 and cognitive_load "normal". -/
theorem C2_cognitive_scorer_witness :
    evaluate_cognitive_scan (.dict [("faces", .list [.dict [("age", .int 20)]])]) =
      .ok (.dict [("stress_score", .float (mkRat 4 10)), ("cognitive_load", .str "normal")]) := by
  have h := C2_cognitive_scorer [("faces", .list [.dict [("age", .int 20)]])]
    [("age", .int 20)] [] (.int 20) 20 rfl rfl (by norm_num [toNum])
  simpa using h

/-- C5 counterexample: a zero-length payload under a disallowed filename is
    rejected as UnsupportedFileType, not as EmptyFile, because the filename
    check runs first. -/
theorem C5_counterexample :
    read_upload_file (some "a.txt") [] = .error ⟨400, "Unsupported file type"⟩
    ∧ (HTTPError.mk 400 "Unsupported file type" ≠ HTTPError.mk 400 "Empty file uploaded") :=
  ⟨rfl, by decide⟩

/-- C5 amended: for every zero-length payload whose filename passes the
    extension check, validation rejects with the EmptyFile error (400,
    empty-file message); a disallowed filename takes precedence instead. -/
theorem C5_empty_after_extension (filename : Option String)
    (h : is_allowed_filename filename = true) :
    read_upload_file filename [] = .error ⟨400, "Empty file uploaded"⟩ := by
  simp [read_upload_file, h]

/-- C5 witness: the empty payload named a.png is rejected as EmptyFile. -/
theorem C5_empty_after_extension_witness :
    read_upload_file (some "a.png") [] = .error ⟨400, "Empty file uploaded"⟩ :=
  C5_empty_after_extension (some "a.png") (by decide)

/-- C6: for every filename and nonempty payload, upload reading rejects with
    UnsupportedFileType exactly when the filename has no dot-extension whose
    lowercase form is in the allow-list, and passes the extension check
    otherwise. -/
theorem C6_unsupported_extension (f : String) (bs : List Nat) (hb : bs ≠ []) :
    (read_upload_file (some f) bs = .error ⟨400, "Unsupported file type"⟩ ↔ ¬ hasAllowedExt f)
    ∧ (hasAllowedExt f → read_upload_file (some f) bs = .ok bs) := by
  have hbe : bs.isEmpty = false := by simpa using hb
  constructor
  · cases hA : is_allowed_filename (some f) with
    | true =>
      have hok : read_upload_file (some f) bs = .ok bs := by
        simp [read_upload_file, hA, hbe]
      rw [hok]
      simp [← allowed_iff, hA]
    | false =>
      have herr : read_upload_file (some f) bs = .error ⟨400, "Unsupported file type"⟩ := by
        simp [read_upload_file, hA]
      rw [herr]
      simp [← allowed_iff, hA]
  · intro hx
    have hA : is_allowed_filename (some f) = true := (allowed_iff f).mpr hx
    simp [read_upload_file, hA, hbe]

/-- C6 witness: photo.png with a one-byte payload passes the extension check
    and is read successfully. -/
theorem C6_unsupported_extension_witness :
    read_upload_file (some "photo.png") [7] = .ok [7] :=
  (C6_unsupported_extension "photo.png" [7] (by decide)).2
    ⟨['p', 'h', 'o', 't', 'o'], ['p', 'n', 'g'], by decide, by decide, by decide⟩

/-- C10: the extension check is case-insensitive: a filename is accepted
    exactly when the lowercased form of its last-dot extension is in the
    allow-list; in particular photo.PNG and photo.Jpg pass. -/
theorem C10_case_insensitive :
    (∀ f : String, is_allowed_filename (some f) = true ↔ hasAllowedExt f)
    ∧ is_allowed_filename (some "photo.PNG") = true
    ∧ is_allowed_filename (some "photo.Jpg") = true :=
  ⟨allowed_iff, by decide, by decide⟩

/-- C10 witness: photo.PNG is accepted by the extension check. -/
theorem C10_case_insensitive_witness :
    is_allowed_filename (some "photo.PNG") = true :=
  C10_case_insensitive.2.1

/-- Spec-style alias selection for score fields: the first truthy alias value
    wins, and the final alias is the fallback even when its value is falsy
    (the or-chain returns its last operand unconditionally). -/
def selectAlias (scores : List (String × Value)) : List String → Value
  | [] => .null
  | [k] => getD scores k
  | k :: ks => if truthy (getD scores k) then getD scores k else selectAlias scores ks

/-- C3 counterexample: a present healthScore of 0 is falsy, so the shaper
    falls through to the health_score alias and reports 50 instead of 0. -/
theorem C3_counterexample :
    respField (shape_response "physical" (.dict [])
        (.dict [("healthScore", .int 0), ("health_score", .int 50)]) (.str "")) "healthScore"
      = some (.int 50)
    ∧ Value.int 50 ≠ Value.int 0 :=
  ⟨rfl, by simp⟩

/-- C3 amended: healthScore is the first truthy value among scores.healthScore,
    scores.health_score, scores.score, with scores.health as the final
    fallback even when falsy; the selected value is coerced via float and
    round-to-nearest (ties to even) and null results when the selection is
    None or coercion fails; cognitiveScore follows the same rule over
    cognitiveScore, cognitive_score, cognitive. A present key with a falsy
    value (such as 0) is skipped in favor of later aliases except in the
    final position. -/
theorem C3_alias_selection (mode : String) (vf scores : List (String × Value)) (exp : Value)
    (h : objects_ok vf = true) :
    respField (shape_response mode (.dict vf) (.dict scores) exp) "healthScore"
        = some (normIfPresent (selectAlias scores ["healthScore", "health_score", "score", "health"]))
    ∧ respField (shape_response mode (.dict vf) (.dict scores) exp) "cognitiveScore"
        = some (normIfPresent (selectAlias scores ["cognitiveScore", "cognitive_score", "cognitive"])) := by
  rw [shape_ok_of_objects_ok mode vf scores exp h]
  exact ⟨rfl, rfl⟩

/-- C3 witness: with only the final alias present and falsy (health = 0) the
    shaper still reports 0, the last operand of the or-chain. -/
theorem C3_alias_selection_witness :
    respField (shape_response "physical" (.dict []) (.dict [("health", .int 0)]) (.str "")) "healthScore"
      = some (.int 0) := by
  have h := (C3_alias_selection "physical" [] [("health", .int 0)] (.str "") (by decide)).1
  exact h.trans rfl

/-- C4 counterexample: the shaper raises (AttributeError) when
    features.objects contains a non-mapping entry, so it does not never-raise
    over all feature mappings. -/
theorem C4_counterexample :
    shape_response "physical" (.dict [("objects", .list [.int 5])]) (.dict []) (.str "")
      = .error "AttributeError: object has no attribute get" := rfl

/-- C4 amended: for every mode, scores mapping and narration value, and every
    features mapping whose objects entry (when present and used) is a list of
    mappings, the shaper returns a structurally complete response without
    raising; when the optional keys are absent the documented defaults result
    (empty summary, null scores and confidence, empty highlight and
    recommendation lists). -/
theorem C4_shaper_safety :
    (∀ (mode : String) (vf scores : List (String × Value)) (exp : Value),
        objects_ok vf = true →
        ∃ r, shape_response mode (.dict vf) (.dict scores) exp = .ok (.dict r) ∧
          (["mode", "summary", "healthScore", "cognitiveScore", "confidence", "highlights",
            "recommendations", "features", "scores"].all (fun k => (dictGet r k).isSome)) = true)
    ∧ (∀ (mode : String) (vf : List (String × Value)) (exp : Value),
        dictGet vf "regions" = Option.none → dictGet vf "objects" = Option.none →
        isStr exp = false → isDictV exp = false →
        shape_response mode (.dict vf) (.dict []) exp =
          .ok (.dict [("mode", .str mode), ("summary", .str ""), ("healthScore", .null),
                      ("cognitiveScore", .null), ("confidence", .null), ("highlights", .list []),
                      ("recommendations", .list []), ("features", .dict vf), ("scores", .dict [])])) := by
  constructor
  · intro mode vf scores exp h
    exact ⟨shapeBase mode (.dict vf) scores exp ++ regionsEntry vf,
      shape_ok_of_objects_ok mode vf scores exp h, rfl⟩
  · intro mode vf exp hr ho hstr hdict
    have h : objects_ok vf = true := by simp [objects_ok, hr, ho]
    rw [shape_ok_of_objects_ok mode vf [] exp h]
    have hre : regionsEntry vf = [] := by simp [regionsEntry, regionsSpec, hr, ho]
    rw [hre, List.append_nil]
    cases exp <;>
      simp_all [shapeBase, summaryOf, getD, dictGet, pyOrV, truthy, normIfPresent,
        isNull, isNumLike, isStr, isDictV]

/-- C4 witness: an empty feature and score mapping with a null narration
    shapes to the all-defaults response, and its base keys are all present. -/
theorem C4_shaper_safety_witness :
    shape_response "cognitive" (.dict []) (.dict []) .null =
      .ok (.dict [("mode", .str "cognitive"), ("summary", .str ""), ("healthScore", .null),
                  ("cognitiveScore", .null), ("confidence", .null), ("highlights", .list []),
                  ("recommendations", .list []), ("features", .dict []), ("scores", .dict [])]) :=
  C4_shaper_safety.2 "cognitive" [] .null rfl rfl rfl rfl

/-- C9: under the same objects well-formedness, the shaped response's regions
    field is features.regions verbatim when present, else the first at-most-8
    objects mapped to name/rectangle pairs when objects is present, and is
    omitted otherwise. -/
theorem C9_regions_field (mode : String) (vf scores : List (String × Value)) (exp : Value)
    (h : objects_ok vf = true) :
    respField (shape_response mode (.dict vf) (.dict scores) exp) "regions" = regionsSpec vf := by
  rw [shape_ok_of_objects_ok mode vf scores exp h]
  show dictGet (shapeBase mode (.dict vf) scores exp ++ regionsEntry vf) "regions" = regionsSpec vf
  rw [dictGet_append]
  have hbase : dictGet (shapeBase mode (.dict vf) scores exp) "regions" = Option.none := rfl
  rw [hbase]
  cases hr : regionsSpec vf <;> simp [regionsEntry, hr, dictGet]

/-- A feature mapping carrying ten objects, each with a name and boundingBox. -/
def vfObjects : List (String × Value) :=
  [("objects", .list (List.replicate 10
    (.dict [("name", .str "cat"), ("boundingBox", .dict [("x", .int 1)])])))]

/-- C9 witness: ten well-formed objects shape to exactly eight name/rectangle
    pairs in the regions field. -/
theorem C9_regions_field_witness :
    respField (shape_response "cognitive" (.dict vfObjects) (.dict []) (.str "s")) "regions"
      = some (.list (List.replicate 8
          (.dict [("object", .str "cat"), ("rectangle", .dict [("x", .int 1)])]))) := by
  have h := C9_regions_field "cognitive" vfObjects [] (.str "s") (by decide)
  exact h.trans rfl

/-! ### Handler claims -/

/-- A vision backend failing with exception text "boom", next to a narrator
    that succeeds. -/
def failVisionBackends : Backends :=
  ⟨fun _ => .error "boom", fun _ => .ok (.str "insight")⟩

/-- Stub backends for end-to-end runs: the repository's mock vision response
    plus a canned narration string. -/
def stubBackends : Backends :=
  ⟨fun b => .ok (analyze_image b), fun _ => .ok (.str "insight")⟩

/-- C7 counterexample: when the extractor fails with "boom", physical_scan
    raises a 500 whose detail is the fixed prefix concatenated with the
    exception text, so the internal error text is included in the response
    body (here on a fresh app; the guard in its except block makes this
    independent of the logger state). -/
theorem C7_counterexample :
    (physical_scan failVisionBackends false (some "a.png", [1])).1
      = .http ⟨500, "Internal error: " ++ "boom"⟩ := rfl

/-- C7 amended: when the pipeline body (extractor, scorer, shaper or
    narrator) fails with exception text msg, physical_scan returns HTTP 500
    with detail "Internal error: " followed by msg — leaking the internal
    text — and leaves the APP.logger attribute set; cognitive_scan does the
    same when the APP.logger attribute is already set (it is set only by a
    previous physical_scan failure), but on a fresh app its unguarded
    `if APP.logger:` lookup raises AttributeError, which escapes the handler,
    so the framework answers with its generic 500 carrying none of the
    exception's text. -/
theorem C7_error_wrapping (B : Backends) (image : Option String × List Nat) (msg : String)
    (loggerSet : LoggerState)
    (hv : read_upload_file image.1 image.2 = .ok image.2) :
    (run_pipeline B evaluate_physical_scan "physical" image.2 = .error msg →
      physical_scan B loggerSet image = (.http ⟨500, "Internal error: " ++ msg⟩, true))
    ∧ (run_pipeline B evaluate_cognitive_scan "cognitive" image.2 = .error msg →
        (loggerSet = true →
          cognitive_scan B loggerSet image = (.http ⟨500, "Internal error: " ++ msg⟩, true))
        ∧ (loggerSet = false →
          cognitive_scan B loggerSet image
            = (.crash "AttributeError: \x27FastAPI\x27 object has no attribute \x27logger\x27",
               false))) := by
  constructor
  · intro hp
    simp [physical_scan, hv, hp]
  · intro hp
    constructor <;> intro hl <;> subst hl <;> simp [cognitive_scan, hv, hp]

/-- C7 witness: with the failing extractor, a fresh cognitive_scan crashes
    with the AttributeError (no interpolated detail reaches the client),
    while physical_scan on the same fresh app returns the leaking 500 and
    sets the logger attribute. -/
theorem C7_error_wrapping_witness :
    cognitive_scan failVisionBackends false (some "b.png", [2])
      = (.crash "AttributeError: \x27FastAPI\x27 object has no attribute \x27logger\x27", false)
    ∧ physical_scan failVisionBackends false (some "b.png", [2])
      = (.http ⟨500, "Internal error: " ++ "boom"⟩, true) :=
  ⟨((C7_error_wrapping failVisionBackends (some "b.png", [2]) "boom" false rfl).2 rfl).2 rfl,
   (C7_error_wrapping failVisionBackends (some "b.png", [2]) "boom" false rfl).1 rfl⟩

/-- C8 counterexample: mode "Physical" is neither "physical" nor "cognitive",
    yet the handler lowercases it and dispatches to the physical pipeline
    (producing a 200 response) instead of returning a 400. -/
theorem C8_counterexample :
    isRespOutcome (scan stubBackends false (some "a.png", [1]) (some "Physical")).1 = true
    ∧ scan stubBackends false (some "a.png", [1]) (some "Physical")
        = physical_scan stubBackends false (some "a.png", [1]) :=
  ⟨rfl, rfl⟩

/-- C8 amended: the handler lowercases the supplied mode (defaulting an
    absent or empty mode to cognitive); when the lowercased mode is neither
    "cognitive" nor "physical" it returns HTTP 400 with a detail naming both
    allowed values, and otherwise dispatches to the matching pipeline. -/
theorem C8_mode_dispatch (B : Backends) (loggerSet : LoggerState)
    (image : Option String × List Nat) (m : Option String) :
    (norm_mode m ≠ "cognitive" → norm_mode m ≠ "physical" →
      scan B loggerSet image m
        = (.http ⟨400, "mode must be \x27cognitive\x27 or \x27physical\x27"⟩, loggerSet))
    ∧ (norm_mode m = "physical" → scan B loggerSet image m = physical_scan B loggerSet image)
    ∧ (norm_mode m = "cognitive" → scan B loggerSet image m = cognitive_scan B loggerSet image)
    ∧ (m = Option.none → scan B loggerSet image m = cognitive_scan B loggerSet image) := by
  refine ⟨?_, ?_, ?_, ?_⟩
  · intro h1 h2
    simp [scan, h1, h2]
  · intro h
    simp [scan, h]
  · intro h
    simp [scan, h]
  · intro h
    subst h
    rfl

/-- C8 witness: mode "banana" is rejected with the 400 naming the allowed
    values. -/
theorem C8_mode_dispatch_witness :
    scan stubBackends false (some "a.png", [1]) (some "banana")
      = (.http ⟨400, "mode must be \x27cognitive\x27 or \x27physical\x27"⟩, false) :=
  (C8_mode_dispatch stubBackends false (some "a.png", [1]) (some "banana")).1
    (by decide) (by decide)

end LifeScan
